import Mathlib

/-!
Verification of the multimodal route planner's UI pipeline (`plannerui.py`)
against its natural-language specification.

The repository ships only the Streamlit UI file `plannerui.py`; the planner
collaborator module it imports (`paths_to_segs`, `choose_best_route`,
`haversine`, `AVG_WALK_SPEED`, `append_history`, ...) is not part of the
repository's files.  Definitions below therefore come in two kinds:

* faithful translations of the code in `plannerui.py` (the search button
  handler, the in-browser ODsay call of `JS_TEMPLATE`, the fallback walk
  route, the history record, the sidebar preference widgets);
* definitions whose doc comment starts `Modelled from the spec:` for the
  pieces that live in the unseen planner module (segment normalization,
  scoring, selection, the average walking speed).

The haversine distance utility is also unseen and is not reducible to
rational arithmetic; every statement that involves it is parametric over a
distance function `hav`, standing for whatever `haversine` returns.

Numeric values are modelled as rationals (Python floats idealised as exact
arithmetic); Python's `round(x, 2)` is modelled as round-half-to-even on
`100 * x`.  Arithmetic inside the executable definitions is written with
the kernel-reducible rational operations `qadd`/`qsub`/`qmul`/`qdiv`/...
below (Lean's `Rat.add` etc. are `@[irreducible]`); the bridge lemmas
`qadd_eq` etc. relate them to the ordinary field operations used in the
statements.
-/

namespace Planner

/-! ### Kernel-reducible rational arithmetic -/

/-- `a + b` on `ℚ`, by numerator/denominator arithmetic. -/
def qadd (a b : ℚ) : ℚ := mkRat (a.num * b.den + b.num * a.den) (a.den * b.den)

/-- `a - b` on `ℚ`, by numerator/denominator arithmetic. -/
def qsub (a b : ℚ) : ℚ := mkRat (a.num * b.den - b.num * a.den) (a.den * b.den)

/-- `a * b` on `ℚ`, by numerator/denominator arithmetic. -/
def qmul (a b : ℚ) : ℚ := mkRat (a.num * b.num) (a.den * b.den)

/-- `a / b` on `ℚ`, by numerator/denominator arithmetic. -/
def qdiv (a b : ℚ) : ℚ := Rat.divInt (a.num * b.den) (a.den * b.num)

/-- `max a b` on `ℚ`. -/
def qmax (a b : ℚ) : ℚ := if a ≤ b then b else a

/-- `min a b` on `ℚ`. -/
def qmin (a b : ℚ) : ℚ := if a ≤ b then a else b

/-- `max a b` on `ℤ`. -/
def zmax (a b : ℤ) : ℤ := if a ≤ b then b else a

/-- `min a b` on `ℤ`. -/
def zmin (a b : ℤ) : ℤ := if a ≤ b then a else b

/-- Sum of a list of rationals. -/
def qsum (l : List ℚ) : ℚ := l.foldr qadd (mkRat 0 1)

/-! ### Data model -/

/-- Travel mode of one segment (spec §3): subway, bus or walk. -/
inductive Mode
| SUBWAY
| BUS
| WALK
deriving DecidableEq

/-- One leg of a journey, the `Segment` shape of spec §3 and of the
segment dictionaries built in `plannerui.py` (fallback block, lines
258-268). -/
structure Segment where
  mode : Mode
  name : String
  distance_m : ℚ
  duration_min : ℚ
  crowd : ℤ
  best_car : Option ℤ
  poly : List (ℚ × ℚ)
deriving DecidableEq

/-- User-tunable weights (spec §3 `PreferenceProfile`); mirrors the
`current_prefs` dictionary of `plannerui.py` lines 169-175, with the
string-keyed mode dictionaries as total functions on `Mode`. -/
structure PreferenceProfile where
  crowd_weight : ℚ
  max_crowd : ℤ
  walk_limit_min : ℤ
  mode_penalty : Mode → ℚ
  mode_preference : Mode → ℚ

/-- Clamp of a rational widget value to the widget's declared bounds: a
Streamlit slider / number_input with bounds `lo`, `hi` only ever yields a
value inside `[lo, hi]`. -/
def clampQ (lo hi v : ℚ) : ℚ := qmax lo (qmin hi v)

/-- Clamp of an integer widget value to the widget's declared bounds. -/
def clampZ (lo hi v : ℤ) : ℤ := zmax lo (zmin hi v)

/-- The per-search preference snapshot `current_prefs` of `plannerui.py`
lines 169-175, built from the sidebar widget values: `crowd_weight` from a
`0.0..5.0` slider, `max_crowd` from a `1..4` slider, `walk_limit_min` from
a `0..60` number input, the three mode penalties from `0.0..10.0` number
inputs and the three mode preferences from `-10.0..10.0` number inputs
(lines 95-135). -/
def current_prefs (cw : ℚ) (mc wl : ℤ) (mpS mpB mpW prS prB prW : ℚ) :
    PreferenceProfile :=
  { crowd_weight := clampQ (mkRat 0 1) (mkRat 5 1) cw
    max_crowd := clampZ 1 4 mc
    walk_limit_min := clampZ 0 60 wl
    mode_penalty := fun m =>
      match m with
      | .SUBWAY => clampQ (mkRat 0 1) (mkRat 10 1) mpS
      | .BUS => clampQ (mkRat 0 1) (mkRat 10 1) mpB
      | .WALK => clampQ (mkRat 0 1) (mkRat 10 1) mpW
    mode_preference := fun m =>
      match m with
      | .SUBWAY => clampQ (mkRat (-10) 1) (mkRat 10 1) prS
      | .BUS => clampQ (mkRat (-10) 1) (mkRat 10 1) prB
      | .WALK => clampQ (mkRat (-10) 1) (mkRat 10 1) prW }

/-! ### Number and coordinate parsing

`JS_TEMPLATE` (lines 181-214) validates the two location strings with
`"...".split(",").map(parseFloat)` and `isNaN`; the fallback block (lines
252-254) re-parses them with Python's `map(float, s.split(","))`; the
`draw_map` call (lines 284-288) parses `float(s.split(",")[0])` and
`float(s.split(",")[1])`.  The models below cover sign, integer, fraction
and exponent notation; JavaScript's `Infinity` and Python's
`inf`/`nan`/underscore forms are not modelled (no claim touches them). -/

/-- Numeric value of a digit string, most significant digit first. -/
def digitsVal (cs : List Char) : ℕ :=
  cs.foldl (fun a c => 10 * a + (c.toNat - 48)) 0

/-- `10 ^ e` for a signed exponent, as a rational. -/
def pow10 (e : ℤ) : ℚ :=
  if 0 ≤ e then mkRat ((10 : ℤ) ^ e.toNat) 1 else mkRat 1 ((10 : ℕ) ^ (-e).toNat)

/-- Consume an optional leading sign; `true` means negative. -/
def parseSign : List Char → Bool × List Char
| '-' :: r => (true, r)
| '+' :: r => (false, r)
| r => (false, r)

/-- Consume an unsigned decimal mantissa `digits [. digits]`; fails when
neither the integer nor the fractional digit group is present. -/
def parseUnsigned (cs : List Char) : Option (ℚ × List Char) :=
  let intDs := cs.takeWhile Char.isDigit
  let rest1 := cs.dropWhile Char.isDigit
  match rest1 with
  | '.' :: rest2 =>
    let fracDs := rest2.takeWhile Char.isDigit
    let rest3 := rest2.dropWhile Char.isDigit
    if intDs.isEmpty && fracDs.isEmpty then none
    else
      some
        (mkRat (digitsVal intDs * 10 ^ fracDs.length + digitsVal fracDs)
          (10 ^ fracDs.length), rest3)
  | _ =>
    if intDs.isEmpty then none
    else some (mkRat (digitsVal intDs) 1, rest1)

/-- Consume an optional well-formed exponent part `e[sign]digits` /
`E[sign]digits`; a malformed exponent is left unconsumed. -/
def parseExp (cs : List Char) : ℤ × List Char :=
  match cs with
  | c :: r =>
    if c = 'e' || c = 'E' then
      let (neg, r2) := parseSign r
      let ds := r2.takeWhile Char.isDigit
      if ds.isEmpty then (0, cs)
      else
        ((if neg then -(digitsVal ds : ℤ) else (digitsVal ds : ℤ)),
          r2.dropWhile Char.isDigit)
    else (0, cs)
  | [] => (0, cs)

/-- Consume one signed decimal number `[sign] digits [. digits] [exp]`,
returning its value and the unconsumed rest. -/
def parseNumber (cs : List Char) : Option (ℚ × List Char) :=
  let (neg, r1) := parseSign cs
  match parseUnsigned r1 with
  | none => none
  | some (m, r2) =>
    let (e, r3) := parseExp r2
    some (qmul (if neg then -m else m) (pow10 e), r3)

/-- JavaScript's `parseFloat` on one string component: skip leading
whitespace, read a leading number, ignore trailing text; `none` models
`NaN`. -/
def parseFloatJS (cs : List Char) : Option ℚ :=
  match parseNumber (cs.dropWhile Char.isWhitespace) with
  | some (v, _) => some v
  | none => none

/-- Python's `float` on one string component: leading and trailing
whitespace stripped, the whole remainder must be one number; `none`
models a raised `ValueError`. -/
def pyFloat (cs : List Char) : Option ℚ :=
  let t := ((cs.dropWhile Char.isWhitespace).reverse.dropWhile Char.isWhitespace).reverse
  match parseNumber t with
  | some (v, []) => some v
  | _ => none

/-- Split a character list at every comma; `split(",")` of both Python
and JavaScript. -/
def splitCommaAux : List Char → List Char → List (List Char)
| [], acc => [acc.reverse]
| c :: cs, acc =>
  if c = ',' then acc.reverse :: splitCommaAux cs []
  else splitCommaAux cs (c :: acc)

/-- `s.split(",")` of a location string. -/
def splitComma (s : String) : List (List Char) := splitCommaAux s.data []

/-- The coordinate validation of `JS_TEMPLATE` lines 185-189:
`const [sy, sx] = s.split(",").map(parseFloat)` followed by the `isNaN`
check; a missing component destructures to `undefined`, whose `parseFloat`
is `NaN`.  Components beyond the second are ignored. -/
def parseCoordsJS (s : String) : Option (ℚ × ℚ) := do
  let parts := splitComma s
  let a ← parts[0]?
  let b ← parts[1]?
  let sy ← parseFloatJS a
  let sx ← parseFloatJS b
  some (sy, sx)

/-- The fallback block's parse, lines 252-254:
`sy, sx = map(float, s.split(","))` — exactly two components, each a full
Python float; `none` models the caught `ValueError`. -/
def pyParsePair (s : String) : Option (ℚ × ℚ) :=
  match splitComma s with
  | [a, b] => do
    let x ← pyFloat a
    let y ← pyFloat b
    some (x, y)
  | _ => none

/-- The `draw_map` call-site parse, lines 284-288:
`float(s.split(",")[0])`, `float(s.split(",")[1])`; `none` models an
uncaught `IndexError`/`ValueError`. -/
def drawParse (s : String) : Option (ℚ × ℚ) :=
  match splitComma s with
  | a :: b :: _ => do
    let x ← pyFloat a
    let y ← pyFloat b
    some (x, y)
  | _ => none

/-! ### Provider payload and the unseen planner collaborator -/

/-- One lane/line metadata entry of a raw sub-path (spec §6). -/
structure Lane where
  name : Option String
  busNo : Option String
deriving DecidableEq

/-- One raw provider sub-path record (spec §6): mode-type code, section
time, distance, optional lane metadata, optional crowd level, optional
recommended car, optional intermediate-stop geometry. -/
structure RawSubPath where
  trafficType : Option ℤ
  sectionTime : Option ℚ
  distance : Option ℚ
  lane : Option (List Lane)
  crowd : Option ℤ
  bestCar : Option ℤ
  passStops : Option (List (ℚ × ℚ))
deriving DecidableEq

/-- One raw provider path record: an optional ordered sub-path list
(`p.get("subPath", [])`, line 244). -/
structure OdsayPath where
  subPath : Option (List RawSubPath)
deriving DecidableEq

/-- The provider's `result` object: an optional path list
(`.get("path", [])`, line 242). -/
structure OdsayResult where
  path : Option (List OdsayPath)
deriving DecidableEq

/-- What `orjson.loads(raw_json)` yields on line 234: an optional `error`
entry (present in every failure JSON the template builds, checked by
`"error" in resp` on line 235) and an optional `result` object. -/
structure PyResp where
  error : Option String
  result : Option OdsayResult
deriving DecidableEq

/-- Modelled from the spec: the unseen planner module's `AVG_WALK_SPEED`,
the fixed average walking speed of 1.3 m/s implied by §8's
`duration_min equals distance_m / (1.3*60)`. -/
def AVG_WALK_SPEED : ℚ := mkRat 13 10

/-- Walking duration in minutes of a distance in meters:
`dist / (AVG_WALK_SPEED * 60)` (spec §3/§4.5). -/
def walkDuration (dist : ℚ) : ℚ := qdiv dist (qmul AVG_WALK_SPEED (mkRat 60 1))

/-- Modelled from the spec: §4.1's Segment Normalizer for one raw
sub-path.  Mode code 1 is SUBWAY, 2 is BUS, anything else WALK; WALK
duration is always recomputed from the distance and the fixed walking
speed; names come from the first lane entry with generic placeholders;
every missing optional field has a default. -/
def normalize_subpath (sp : RawSubPath) : Segment :=
  let mode : Mode :=
    match sp.trafficType with
    | some 1 => .SUBWAY
    | some 2 => .BUS
    | _ => .WALK
  let dist : ℚ := sp.distance.getD (mkRat 0 1)
  { mode := mode
    name :=
      match mode, sp.lane with
      | .SUBWAY, some (l :: _) => l.name.getD "지하철"
      | .SUBWAY, _ => "지하철"
      | .BUS, some (l :: _) => l.busNo.getD "버스"
      | .BUS, _ => "버스"
      | .WALK, _ => "도보"
    distance_m := dist
    duration_min :=
      match mode with
      | .WALK => walkDuration dist
      | _ => sp.sectionTime.getD (mkRat 0 1)
    crowd := sp.crowd.getD 1
    best_car :=
      match mode with
      | .SUBWAY => sp.bestCar
      | _ => none
    poly := sp.passStops.getD [] }

/-- Modelled from the spec: the unseen `paths_to_segs`, §4.1/§4.2 — one
normalized `Segment` per raw sub-path, order preserved.  The `prefs`
argument mirrors the call site (line 244); §4.1's normalization contract
does not use it. -/
def paths_to_segs (subPaths : List RawSubPath) (prefs : PreferenceProfile) :
    List Segment :=
  let _ := prefs
  subPaths.map normalize_subpath

/-- Total walking minutes of a segment list: the sum of `duration_min`
over its WALK segments (spec §4.3). -/
def walkMinutes (segs : List Segment) : ℚ :=
  qsum ((segs.filter fun s => s.mode == Mode.WALK).map fun s => s.duration_min)

/-- Modelled from the spec: §4.3's feasibility check — some segment's
crowd exceeds `max_crowd`, or the WALK minutes exceed `walk_limit_min`. -/
def infeasible (segs : List Segment) (prefs : PreferenceProfile) : Bool :=
  (segs.any fun s => decide (prefs.max_crowd < s.crowd)) ||
    decide (mkRat prefs.walk_limit_min 1 < walkMinutes segs)

/-- Modelled from the spec: one feasible segment's cost contribution,
`duration * (1 + mode_penalty + mode_preference + crowd_weight * (crowd - 1))`,
§4.3's suggested encoding (the exact formula of the unseen module is an
open question of the spec; only feasibility matters to the claims
below). -/
def segCost (prefs : PreferenceProfile) (s : Segment) : ℚ :=
  qmul s.duration_min
    (qadd (qadd (qadd (mkRat 1 1) (prefs.mode_penalty s.mode))
        (prefs.mode_preference s.mode))
      (qmul prefs.crowd_weight (qsub (mkRat s.crowd 1) (mkRat 1 1))))

/-- Total cost of a feasible route: the sum of its segment costs. -/
def routeCost (segs : List Segment) (prefs : PreferenceProfile) : ℚ :=
  qsum (segs.map (segCost prefs))

/-- Modelled from the spec: §4.3's `score(route, prefs) -> float |
infeasible`, with `⊤` as the conventional `+infinity` cost of an
infeasible route. -/
def score (segs : List Segment) (prefs : PreferenceProfile) : WithTop ℚ :=
  if infeasible segs prefs then ⊤ else (routeCost segs prefs : WithTop ℚ)

/-- One fold step of the selector: keep the first-seen candidate of
strictly minimal cost, skipping infeasible ones. -/
def selectStep (prefs : PreferenceProfile)
    (acc : Option (ℕ × List Segment × ℚ)) (p : ℕ × List Segment) :
    Option (ℕ × List Segment × ℚ) :=
  if infeasible p.2 prefs then acc
  else
    let c := routeCost p.2 prefs
    match acc with
    | none => some (p.1, p.2, c)
    | some (j, rb, cb) => if c < cb then some (p.1, p.2, c) else some (j, rb, cb)

/-- Modelled from the spec: the unseen `choose_best_route`, §4.4's
Selector — `(none, none)` when no candidate is feasible, else the
minimum-cost feasible route, ties broken by lowest original index. -/
def choose_best_route (routes : List (List Segment))
    (prefs : PreferenceProfile) : Option ℕ × Option (List Segment) :=
  match routes.enum.foldl (selectStep prefs) none with
  | none => (none, none)
  | some (i, r, _) => (some i, some r)

/-! ### The search pipeline of the button handler (lines 220-303) -/

/-- How the browser-side ODsay call can go once the coordinates pass
validation: the `fetch`/`json()` threw (caught by the template's `catch`),
the HTTP status was non-success (`!resp.ok`), or a JSON payload came
back. -/
inductive FetchBehavior
| throwEx (msg : String)
| httpFail (status : ℕ)
| ok (resp : PyResp)

/-- The JSON the browser call of `JS_TEMPLATE` hands back (lines
182-213): coordinate validation first, then the fetch outcome. -/
def jsResult (origin dest : String) (f : FetchBehavior) : PyResp :=
  match parseCoordsJS origin, parseCoordsJS dest with
  | some _, some _ =>
    match f with
    | .throwEx e => { error := some e, result := none }
    | .httpFail n => { error := some ("HTTP " ++ toString n), result := none }
    | .ok resp => resp
  | _, _ => { error := some "Invalid coordinate format", result := none }

/-- `resp.get("result", {}).get("path", [])` — line 242. -/
def getPaths (resp : PyResp) : List OdsayPath :=
  match resp.result with
  | none => []
  | some r => r.path.getD []

/-- The candidate list handed to `choose_best_route` — lines 243-245:
`[paths_to_segs(p.get("subPath", []), prefs=current_prefs) for p in paths]`. -/
def candidateRoutes (resp : PyResp) (prefs : PreferenceProfile) :
    List (List Segment) :=
  (getPaths resp).map fun p => paths_to_segs (p.subPath.getD []) prefs

/-- Round-half-to-even of a rational to an integer, Python's `round`. -/
def roundHalfEven (x : ℚ) : ℤ :=
  let f := x.floor
  let r := qsub x (mkRat f 1)
  if r < mkRat 1 2 then f
  else if mkRat 1 2 < r then f + 1
  else if f % 2 = 0 then f else f + 1

/-- Python's `round(x, 2)`. -/
def round2 (x : ℚ) : ℚ := mkRat (roundHalfEven (qmul (mkRat 100 1) x)) 100

/-- The synthetic straight-line walk route of the fallback block, lines
258-268, from the haversine distance `dist` and the parsed origin and
destination coordinates. -/
def fallbackSegs (dist : ℚ) (o d : ℚ × ℚ) : List Segment :=
  [{ mode := .WALK
     name := "직선도보"
     distance_m := dist
     duration_min := round2 (walkDuration dist)
     crowd := 1
     best_car := none
     poly := [o, d] }]

/-- Outcome of the stages after the provider response is in hand. -/
inductive StepResult
| warnStop (msg : String)
| errorStop (msg : String)
| exception (msg : String)
| okSegs (segs : List Segment)
deriving DecidableEq

/-- `true` on the stop-with-message stages (`st.warning`/`st.error`
followed by `st.stop()`). -/
def StepResult.isStop : StepResult → Bool
| .warnStop _ => true
| .errorStop _ => true
| _ => false

/-- Lines 247-268: run the selector; on `not segs` build the fallback
walk route from the re-parsed coordinates (`좌표 형식 오류` when they do
not re-parse).  `hav` stands for the unseen `haversine`. -/
def segsOrFallback (hav : ℚ × ℚ → ℚ × ℚ → ℚ) (origin dest : String)
    (prefs : PreferenceProfile) (resp : PyResp) : Except String (List Segment) :=
  let segs0 := ((choose_best_route (candidateRoutes resp prefs) prefs).2).getD []
  if segs0.isEmpty then
    match pyParsePair origin, pyParsePair dest with
    | some o, some d => .ok (fallbackSegs (hav o d) o d)
    | _, _ => .error "좌표 형식 오류"
  else .ok segs0

/-- Lines 284-288: the `draw_map` call re-parses both location strings
with `float(s.split(",")[i])`; a failure there is an uncaught Python
exception. -/
def renderStage (origin dest : String) (segs : List Segment) : StepResult :=
  match drawParse origin, drawParse dest with
  | some _, some _ => .okSegs segs
  | _, _ => .exception "ValueError"

/-- Lines 234-288: the `"error" in resp` check, then selection, fallback
and map rendering. -/
def respStage (hav : ℚ × ℚ → ℚ × ℚ → ℚ) (origin dest : String)
    (prefs : PreferenceProfile) (resp : PyResp) : StepResult :=
  match resp.error with
  | some e => .errorStop ("ODsay API 오류: " ++ e)
  | none =>
    match segsOrFallback hav origin dest prefs resp with
    | .error m => .errorStop m
    | .ok segs => renderStage origin dest segs

/-- Lines 220-288: the whole button handler up to (not including) the
history append.  `jsOut = none` models `st_javascript` handing back a
falsy `raw_json` (line 230). -/
def searchCore (hav : ℚ × ℚ → ℚ × ℚ → ℚ) (origin dest : String)
    (jsOut : Option FetchBehavior) (prefs : PreferenceProfile) : StepResult :=
  if origin = "" ∨ dest = "" then .warnStop "출발지와 도착지를 모두 입력하세요."
  else
    match jsOut with
    | none => .errorStop "⚠️  JS 실행 실패 or 응답 없음"
    | some f => respStage hav origin dest prefs (jsResult origin dest f)

/-- The history record appended on lines 294-302: timestamp, the two
location strings as typed, the displayed total duration, and the set of
modes used.  Python joins the set `{s.get("mode") for s in segs}` in
unspecified order; the set is modelled as the deduplicated mode list. -/
structure HistoryRecord where
  datetime : String
  origin : String
  dest : String
  total_min : ℚ
  modes : List Mode
deriving DecidableEq

/-- `append_history` record for a produced segment list, lines 294-302;
`total_min` is line 273's `sum(s.get("duration_min", 0) for s in segs)`. -/
def mkHistoryRecord (now origin dest : String) (segs : List Segment) :
    HistoryRecord :=
  { datetime := now
    origin := origin
    dest := dest
    total_min := qsum (segs.map fun s => s.duration_min)
    modes := (segs.map fun s => s.mode).dedup }

/-- Observable outcome of one press of the search button: a warning stop,
an error stop, an uncaught exception, or a produced route together with
the history records appended during the run. -/
inductive Outcome
| warnStop (msg : String)
| errorStop (msg : String)
| exception (msg : String)
| ok (segs : List Segment) (history : List HistoryRecord)
deriving DecidableEq

/-- `true` on the stop-with-message outcomes (`st.warning`/`st.error`
followed by `st.stop()`). -/
def Outcome.isUserStop : Outcome → Bool
| .warnStop _ => true
| .errorStop _ => true
| _ => false

/-- `true` when a route was produced. -/
def Outcome.isOk : Outcome → Bool
| .ok _ _ => true
| _ => false

/-- The full button handler, lines 220-303: `searchCore`, then — only
when the learn-mode checkbox (line 154) is on — the history append of
lines 293-302. -/
def runSearch (hav : ℚ × ℚ → ℚ × ℚ → ℚ) (origin dest : String)
    (jsOut : Option FetchBehavior) (prefs : PreferenceProfile)
    (learn : Bool) (now : String) : Outcome :=
  match searchCore hav origin dest jsOut prefs with
  | .warnStop m => .warnStop m
  | .errorStop m => .errorStop m
  | .exception m => .exception m
  | .okSegs segs =>
    .ok segs (if learn then [mkHistoryRecord now origin dest segs] else [])

/-! ### Concrete fixtures used by the closed statements -/

/-- A concrete stand-in for the unseen haversine: constant 100 meters. -/
def hav0 : ℚ × ℚ → ℚ × ℚ → ℚ := fun _ _ => 100

/-- A concrete preference snapshot: defaults of the sidebar
(`crowd_weight 2.0`, `max_crowd 4`, `walk_limit_min 15`, no penalties or
preferences). -/
def prefs0 : PreferenceProfile :=
  current_prefs (mkRat 2 1) 4 15 (mkRat 0 1) (mkRat 0 1) (mkRat 0 1)
    (mkRat 0 1) (mkRat 0 1) (mkRat 0 1)

/-- Concrete origin input. -/
def origin0 : String := "37.5,127.0"

/-- Concrete destination input. -/
def dest0 : String := "37.51,127.01"

/-- A successful provider response with an empty path list. -/
def emptyResp : PyResp := { error := none, result := some { path := some [] } }

/-- A successful provider response with one path whose sub-path list is
empty. -/
def emptyPathResp : PyResp :=
  { error := none, result := some { path := some [{ subPath := some [] }] } }

/-- A provider response with no `result` key at all. -/
def noResultResp : PyResp := { error := none, result := none }

/-- The segments of the concrete fallback run (`hav0`, `origin0`,
`dest0`). -/
def segsFx : List Segment :=
  fallbackSegs 100 (mkRat 75 2, mkRat 127 1) (mkRat 3751 100, mkRat 12701 100)

/-- A 12-minute walk segment (for the walk-ceiling fixture). -/
def walk12 : Segment :=
  { mode := .WALK, name := "도보", distance_m := mkRat 936 1,
    duration_min := mkRat 12 1, crowd := 1, best_car := none, poly := [] }

/-- An 8-minute walk segment (for the walk-ceiling fixture). -/
def walk8 : Segment :=
  { mode := .WALK, name := "도보", distance_m := mkRat 624 1,
    duration_min := mkRat 8 1, crowd := 1, best_car := none, poly := [] }

/-! ### Bridge lemmas: the kernel-reducible operations agree with the
ordinary field and order operations -/

theorem qadd_eq (a b : ℚ) : qadd a b = a + b := (Rat.add_def' a b).symm

theorem qsub_eq (a b : ℚ) : qsub a b = a - b := (Rat.sub_def' a b).symm

theorem qmul_eq (a b : ℚ) : qmul a b = a * b := by
  rw [Rat.mul_def, Rat.normalize_eq_mkRat]; rfl

theorem qdiv_eq (a b : ℚ) : qdiv a b = a / b := by
  rw [Rat.div_def']; rfl

theorem qmax_eq (a b : ℚ) : qmax a b = max a b := by
  unfold qmax
  by_cases h : a ≤ b
  · rw [if_pos h, max_eq_right h]
  · rw [if_neg h, max_eq_left (le_of_not_le h)]

theorem qmin_eq (a b : ℚ) : qmin a b = min a b := by
  unfold qmin
  by_cases h : a ≤ b
  · rw [if_pos h, min_eq_left h]
  · rw [if_neg h, min_eq_right (le_of_not_le h)]

theorem zmax_eq (a b : ℤ) : zmax a b = max a b := by
  unfold zmax
  by_cases h : a ≤ b
  · rw [if_pos h, max_eq_right h]
  · rw [if_neg h, max_eq_left (le_of_not_le h)]

theorem zmin_eq (a b : ℤ) : zmin a b = min a b := by
  unfold zmin
  by_cases h : a ≤ b
  · rw [if_pos h, min_eq_left h]
  · rw [if_neg h, min_eq_right (le_of_not_le h)]

theorem qsum_eq (l : List ℚ) : qsum l = l.sum := by
  induction l with
  | nil => decide
  | cons a t ih =>
    show qadd a (qsum t) = a + t.sum
    rw [qadd_eq, ih]

theorem mkRat_int_eq (n : ℤ) : mkRat n 1 = (n : ℚ) := Rat.mkRat_one n

theorem avg_walk_speed_eq : AVG_WALK_SPEED = 13 / 10 := by
  show mkRat 13 10 = _
  rw [Rat.mkRat_eq_divInt, Rat.divInt_eq_div]
  norm_num

theorem walkDuration_eq (dist : ℚ) :
    walkDuration dist = dist / (AVG_WALK_SPEED * 60) := by
  unfold walkDuration
  rw [qdiv_eq, qmul_eq, mkRat_int_eq]
  norm_num

/-! ### Helper lemmas about the pipeline -/

theorem infeasible_iff (segs : List Segment) (prefs : PreferenceProfile) :
    infeasible segs prefs = true ↔
      (∃ s ∈ segs, prefs.max_crowd < s.crowd) ∨
        ((prefs.walk_limit_min : ℤ) : ℚ) < walkMinutes segs := by
  simp only [infeasible, Bool.or_eq_true, List.any_eq_true, decide_eq_true_eq,
    mkRat_int_eq]

theorem pyPair_draw {s : String} {p : ℚ × ℚ} (h : pyParsePair s = some p) :
    drawParse s = some p := by
  unfold pyParsePair at h
  unfold drawParse
  rcases hs : splitComma s with _ | ⟨a, _ | ⟨b, rest⟩⟩
  · rw [hs] at h; exact Option.noConfusion h
  · rw [hs] at h; exact Option.noConfusion h
  · rw [hs] at h
    cases rest with
    | nil => exact h
    | cons c t => exact Option.noConfusion h

theorem searchCore_fallback (hav : ℚ × ℚ → ℚ × ℚ → ℚ) (origin dest : String)
    (f : FetchBehavior) (prefs : PreferenceProfile) (o d : ℚ × ℚ)
    (h1 : origin ≠ "") (h2 : dest ≠ "")
    (herr : (jsResult origin dest f).error = none)
    (hsel : ((choose_best_route (candidateRoutes (jsResult origin dest f) prefs) prefs).2).getD [] = [])
    (ho : pyParsePair origin = some o) (hd : pyParsePair dest = some d) :
    searchCore hav origin dest (some f) prefs =
      .okSegs (fallbackSegs (hav o d) o d) := by
  simp only [searchCore, respStage, segsOrFallback, renderStage, h1, h2, herr,
    hsel, ho, hd, pyPair_draw ho, pyPair_draw hd, or_self,
    List.isEmpty_nil, if_true, if_false]

theorem segsOrFallback_nonempty (hav : ℚ × ℚ → ℚ × ℚ → ℚ) (origin dest : String)
    (prefs : PreferenceProfile) (resp : PyResp) (s : List Segment)
    (h : segsOrFallback hav origin dest prefs resp = .ok s) : s ≠ [] := by
  simp only [segsOrFallback] at h
  by_cases he : (((choose_best_route (candidateRoutes resp prefs) prefs).2).getD []).isEmpty
  · rw [if_pos he] at h
    cases ho : pyParsePair origin with
    | none =>
      rw [ho] at h
      cases hd : pyParsePair dest <;> rw [hd] at h <;> exact Except.noConfusion h
    | some o =>
      rw [ho] at h
      cases hd : pyParsePair dest with
      | none => rw [hd] at h; exact Except.noConfusion h
      | some d =>
        rw [hd] at h
        injection h with hs
        subst hs
        exact List.cons_ne_nil _ _
  · rw [if_neg he] at h
    injection h with hs
    subst hs
    intro hnil
    exact he (by rw [hnil]; rfl)

theorem searchCore_ok_nonempty (hav : ℚ × ℚ → ℚ × ℚ → ℚ) (origin dest : String)
    (jsOut : Option FetchBehavior) (prefs : PreferenceProfile) (segs : List Segment)
    (h : searchCore hav origin dest jsOut prefs = .okSegs segs) : segs ≠ [] := by
  unfold searchCore at h
  by_cases hmt : origin = "" ∨ dest = ""
  · rw [if_pos hmt] at h; exact StepResult.noConfusion h
  · rw [if_neg hmt] at h
    cases jsOut with
    | none => exact StepResult.noConfusion h
    | some f =>
      replace h : respStage hav origin dest prefs (jsResult origin dest f) = .okSegs segs := h
      unfold respStage at h
      cases herr : (jsResult origin dest f).error with
      | some e => rw [herr] at h; exact StepResult.noConfusion h
      | none =>
        rw [herr] at h
        cases hfb : segsOrFallback hav origin dest prefs (jsResult origin dest f) with
        | error m => rw [hfb] at h; exact StepResult.noConfusion h
        | ok sP =>
          rw [hfb] at h
          unfold renderStage at h
          cases hdo : drawParse origin with
          | none =>
            rw [hdo] at h
            cases hdd : drawParse dest <;> rw [hdd] at h <;> exact StepResult.noConfusion h
          | some po =>
            rw [hdo] at h
            cases hdd : drawParse dest with
            | none => rw [hdd] at h; exact StepResult.noConfusion h
            | some pd =>
              rw [hdd] at h
              injection h with hs
              subst hs
              exact segsOrFallback_nonempty _ _ _ _ _ _ hfb

theorem searchCore_malformed_isStop (hav : ℚ × ℚ → ℚ × ℚ → ℚ)
    (origin dest : String) (jsOut : Option FetchBehavior)
    (prefs : PreferenceProfile)
    (h : parseCoordsJS origin = none ∨ parseCoordsJS dest = none) :
    (searchCore hav origin dest jsOut prefs).isStop = true := by
  unfold searchCore
  by_cases hmt : origin = "" ∨ dest = ""
  · rw [if_pos hmt]; rfl
  · rw [if_neg hmt]
    cases jsOut with
    | none => rfl
    | some f =>
      show (respStage hav origin dest prefs (jsResult origin dest f)).isStop = true
      have hj : jsResult origin dest f =
          { error := some "Invalid coordinate format", result := none } := by
        unfold jsResult
        rcases h with h | h
        · rw [h]
        · cases hpo : parseCoordsJS origin <;> rw [h]
      rw [hj]
      rfl

theorem isUserStop_eq_isStop (hav : ℚ × ℚ → ℚ × ℚ → ℚ) (origin dest : String)
    (jsOut : Option FetchBehavior) (prefs : PreferenceProfile) (learn : Bool)
    (now : String) :
    (runSearch hav origin dest jsOut prefs learn now).isUserStop =
      (searchCore hav origin dest jsOut prefs).isStop := by
  unfold runSearch
  cases searchCore hav origin dest jsOut prefs <;> rfl

/-! ### The claims -/

/-- Claim C4: a route is scored infeasible (cost `⊤`, the conventional
`+infinity`) if and only if some segment's crowd exceeds
`prefs.max_crowd` or the sum of `duration_min` over its WALK segments
exceeds `prefs.walk_limit_min`; in particular a route whose WALK segments
sum to 20 minutes is rejected under `walk_limit_min = 15`. -/
theorem score_infeasible_iff :
    (∀ (segs : List Segment) (prefs : PreferenceProfile),
        score segs prefs = ⊤ ↔
          (∃ s ∈ segs, prefs.max_crowd < s.crowd) ∨
            ((prefs.walk_limit_min : ℤ) : ℚ) < walkMinutes segs) ∧
      score [walk12, walk8] prefs0 = ⊤ := by
  constructor
  · intro segs prefs
    unfold score
    split_ifs with h
    · exact iff_of_true rfl ((infeasible_iff segs prefs).mp h)
    · refine iff_of_false ?_ fun hc => h ((infeasible_iff segs prefs).mpr hc)
      exact WithTop.coe_ne_top
  · decide

/-- Claim C8: every preference snapshot built from the sidebar widgets
satisfies the declared field domains — `crowd_weight ≥ 0`, `max_crowd` in
`1..4`, `walk_limit_min ≥ 0`, and every `mode_penalty` entry `≥ 0`. -/
theorem prefs_field_domains (cw : ℚ) (mc wl : ℤ) (mpS mpB mpW prS prB prW : ℚ) :
    0 ≤ (current_prefs cw mc wl mpS mpB mpW prS prB prW).crowd_weight ∧
      1 ≤ (current_prefs cw mc wl mpS mpB mpW prS prB prW).max_crowd ∧
      (current_prefs cw mc wl mpS mpB mpW prS prB prW).max_crowd ≤ 4 ∧
      0 ≤ (current_prefs cw mc wl mpS mpB mpW prS prB prW).walk_limit_min ∧
      ∀ m, 0 ≤ (current_prefs cw mc wl mpS mpB mpW prS prB prW).mode_penalty m := by
  have hq : ∀ v : ℚ, 0 ≤ clampQ (mkRat 0 1) (mkRat 10 1) v := by
    intro v
    unfold clampQ
    rw [qmax_eq, qmin_eq]
    have h0 : (mkRat 0 1 : ℚ) = 0 := by decide
    rw [h0]
    exact le_max_left 0 _
  refine ⟨?_, ?_, ?_, ?_, ?_⟩
  · show 0 ≤ clampQ (mkRat 0 1) (mkRat 5 1) cw
    unfold clampQ
    rw [qmax_eq, qmin_eq]
    have h0 : (mkRat 0 1 : ℚ) = 0 := by decide
    rw [h0]
    exact le_max_left 0 _
  · show 1 ≤ clampZ 1 4 mc
    unfold clampZ
    rw [zmax_eq, zmin_eq]
    exact le_max_left 1 _
  · show clampZ 1 4 mc ≤ 4
    unfold clampZ
    rw [zmax_eq, zmin_eq]
    exact max_le (by norm_num) (min_le_left 4 mc)
  · show 0 ≤ clampZ 0 60 wl
    unfold clampZ
    rw [zmax_eq, zmin_eq]
    exact le_max_left 0 _
  · intro m
    cases m
    · exact hq mpS
    · exact hq mpB
    · exact hq mpW

/-- Claim C2 (amended): when selection yields no chosen route (`not segs`)
and both location strings re-parse as coordinates, the run produces a
single-WALK-segment route with `distance_m` the haversine distance,
`duration_min` that distance over `AVG_WALK_SPEED * 60` **rounded to two
decimal places** (Python's `round(.., 2)` on line 263), `crowd = 1`,
`best_car = none` and `poly = [origin, destination]`. -/
theorem fallback_route_shape (hav : ℚ × ℚ → ℚ × ℚ → ℚ) (origin dest : String)
    (f : FetchBehavior) (prefs : PreferenceProfile) (learn : Bool) (now : String)
    (o d : ℚ × ℚ)
    (h1 : origin ≠ "") (h2 : dest ≠ "")
    (herr : (jsResult origin dest f).error = none)
    (hsel : ((choose_best_route (candidateRoutes (jsResult origin dest f) prefs) prefs).2).getD [] = [])
    (ho : pyParsePair origin = some o) (hd : pyParsePair dest = some d) :
    runSearch hav origin dest (some f) prefs learn now =
      .ok
        [{ mode := .WALK
           name := "직선도보"
           distance_m := hav o d
           duration_min := round2 (hav o d / (AVG_WALK_SPEED * 60))
           crowd := 1
           best_car := none
           poly := [o, d] }]
        (if learn then [mkHistoryRecord now origin dest (fallbackSegs (hav o d) o d)]
         else []) := by
  unfold runSearch
  rw [searchCore_fallback hav origin dest f prefs o d h1 h2 herr hsel ho hd]
  show Outcome.ok (fallbackSegs (hav o d) o d) _ = _
  rw [show fallbackSegs (hav o d) o d =
      [{ mode := .WALK, name := "직선도보", distance_m := hav o d,
         duration_min := round2 (hav o d / (AVG_WALK_SPEED * 60)), crowd := 1,
         best_car := none, poly := [o, d] }] by
    unfold fallbackSegs
    rw [walkDuration_eq]]

/-- Witness for C2: the fallback run at `origin0`/`dest0` with an empty
provider path list. -/
theorem fallback_route_shape_witness :
    runSearch hav0 origin0 dest0 (some (FetchBehavior.ok emptyResp)) prefs0 false "t0" =
      Outcome.ok
        [{ mode := .WALK
           name := "직선도보"
           distance_m := hav0 (mkRat 75 2, mkRat 127 1) (mkRat 3751 100, mkRat 12701 100)
           duration_min := round2 (hav0 (mkRat 75 2, mkRat 127 1) (mkRat 3751 100, mkRat 12701 100) / (AVG_WALK_SPEED * 60))
           crowd := 1
           best_car := none
           poly := [(mkRat 75 2, mkRat 127 1), (mkRat 3751 100, mkRat 12701 100)] }]
        (if false then
          [mkHistoryRecord "t0" origin0 dest0
            (fallbackSegs (hav0 (mkRat 75 2, mkRat 127 1) (mkRat 3751 100, mkRat 12701 100))
              (mkRat 75 2, mkRat 127 1) (mkRat 3751 100, mkRat 12701 100))]
         else []) :=
  fallback_route_shape hav0 origin0 dest0 (FetchBehavior.ok emptyResp) prefs0 false "t0"
    (mkRat 75 2, mkRat 127 1) (mkRat 3751 100, mkRat 12701 100)
    (by decide) (by decide) (by decide) (by decide) (by decide) (by decide)

/-- Counterexample for C2 as stated: in the concrete fallback run the
produced duration is `1.28` minutes (the rounded value), which differs
from the exact quotient `distance / (AVG_WALK_SPEED * 60) = 50/39`. -/
theorem fallback_duration_rounded_cex :
    runSearch hav0 origin0 dest0 (some (FetchBehavior.ok emptyResp)) prefs0 false "t0" =
        Outcome.ok segsFx [] ∧
      segsFx.map (fun s => s.duration_min) = [mkRat 32 25] ∧
      ¬ (mkRat 32 25 : ℚ) = 100 / (AVG_WALK_SPEED * 60) := by
  refine ⟨by decide, by decide, ?_⟩
  have h1 : (mkRat 32 25 : ℚ) = 32 / 25 := by
    rw [Rat.mkRat_eq_divInt, Rat.divInt_eq_div]
    norm_num
  rw [h1, avg_walk_speed_eq]
  norm_num

/-- Claim C7: a run with learn mode on that produces a route appends
exactly one history record holding the timestamp, the origin and
destination strings as typed, the total duration (sum of `duration_min`
over the produced segments) and the distinct modes used. -/
theorem history_record_fields (hav : ℚ × ℚ → ℚ × ℚ → ℚ) (origin dest : String)
    (jsOut : Option FetchBehavior) (prefs : PreferenceProfile) (now : String)
    (segs : List Segment) (hist : List HistoryRecord)
    (h : runSearch hav origin dest jsOut prefs true now = .ok segs hist) :
    hist =
      [{ datetime := now
         origin := origin
         dest := dest
         total_min := (segs.map fun s => s.duration_min).sum
         modes := (segs.map fun s => s.mode).dedup }] := by
  unfold runSearch at h
  cases hc : searchCore hav origin dest jsOut prefs <;> rw [hc] at h
  case warnStop m => exact Outcome.noConfusion h
  case errorStop m => exact Outcome.noConfusion h
  case exception m => exact Outcome.noConfusion h
  case okSegs s =>
    replace h : Outcome.ok s [mkHistoryRecord now origin dest s] = Outcome.ok segs hist := h
    injection h with hsegs hhist
    subst hsegs
    subst hhist
    unfold mkHistoryRecord
    rw [qsum_eq]

/-- Witness for C7: the concrete learn-mode fallback run. -/
theorem history_record_fields_witness :
    [({ datetime := "t0", origin := origin0, dest := dest0,
        total_min := mkRat 32 25, modes := [Mode.WALK] } : HistoryRecord)] =
      [{ datetime := "t0"
         origin := origin0
         dest := dest0
         total_min := (segsFx.map fun s => s.duration_min).sum
         modes := (segsFx.map fun s => s.mode).dedup }] :=
  history_record_fields hav0 origin0 dest0 (some (FetchBehavior.ok emptyResp)) prefs0 "t0"
    segsFx
    [{ datetime := "t0", origin := origin0, dest := dest0,
       total_min := mkRat 32 25, modes := [Mode.WALK] }]
    (by decide)

/-- Claim C9: with learn mode off, a run that produces a route appends
nothing to the history store. -/
theorem learn_off_no_history (hav : ℚ × ℚ → ℚ × ℚ → ℚ) (origin dest : String)
    (jsOut : Option FetchBehavior) (prefs : PreferenceProfile) (now : String)
    (segs : List Segment) (hist : List HistoryRecord)
    (h : runSearch hav origin dest jsOut prefs false now = .ok segs hist) :
    hist = [] := by
  unfold runSearch at h
  cases hc : searchCore hav origin dest jsOut prefs <;> rw [hc] at h
  case warnStop m => exact Outcome.noConfusion h
  case errorStop m => exact Outcome.noConfusion h
  case exception m => exact Outcome.noConfusion h
  case okSegs s =>
    replace h : Outcome.ok s [] = Outcome.ok segs hist := h
    injection h with hsegs hhist
    exact hhist.symm

/-- Witness for C9: the concrete fallback run with learn mode off. -/
theorem learn_off_no_history_witness : ([] : List HistoryRecord) = [] :=
  learn_off_no_history hav0 origin0 dest0 (some (FetchBehavior.ok emptyResp)) prefs0 "t0"
    segsFx [] (by decide)

/-- Claim C1 (amended): when the browser-side ODsay call fails — a thrown
network error or a non-success HTTP status — the search reports the
provider error (`ODsay API 오류: ...`) and stops; it does not proceed to
the fallback walking route. -/
theorem provider_failure_stops (hav : ℚ × ℚ → ℚ × ℚ → ℚ) (origin dest : String)
    (prefs : PreferenceProfile) (learn : Bool) (now : String) (n : ℕ) (e : String)
    (o1 o2 : ℚ × ℚ)
    (h1 : origin ≠ "") (h2 : dest ≠ "")
    (h3 : parseCoordsJS origin = some o1) (h4 : parseCoordsJS dest = some o2) :
    runSearch hav origin dest (some (.httpFail n)) prefs learn now =
        .errorStop ("ODsay API 오류: " ++ ("HTTP " ++ toString n)) ∧
      runSearch hav origin dest (some (.throwEx e)) prefs learn now =
        .errorStop ("ODsay API 오류: " ++ e) := by
  constructor <;>
    simp only [runSearch, searchCore, respStage, jsResult, h1, h2, h3, h4,
      or_self, if_false]

/-- Witness for C1: a concrete HTTP-500 run and a concrete thrown-error
run, both stopping with the provider error. -/
theorem provider_failure_stops_witness :
    runSearch hav0 origin0 dest0 (some (FetchBehavior.httpFail 500)) prefs0 false "t0" =
        Outcome.errorStop ("ODsay API 오류: " ++ ("HTTP " ++ toString 500)) ∧
      runSearch hav0 origin0 dest0 (some (FetchBehavior.throwEx "TypeError")) prefs0 false "t0" =
        Outcome.errorStop ("ODsay API 오류: " ++ "TypeError") :=
  provider_failure_stops hav0 origin0 dest0 prefs0 false "t0" 500 "TypeError"
    (mkRat 75 2, mkRat 127 1) (mkRat 3751 100, mkRat 12701 100)
    (by decide) (by decide) (by decide) (by decide)

/-- Counterexample for C1 as stated: an HTTP-500 provider failure ends in
an error stop, not in a produced (fallback) route. -/
theorem provider_error_no_fallback_cex :
    runSearch hav0 origin0 dest0 (some (FetchBehavior.httpFail 500)) prefs0 false "t0" =
        Outcome.errorStop "ODsay API 오류: HTTP 500" ∧
      (runSearch hav0 origin0 dest0 (some (FetchBehavior.httpFail 500)) prefs0 false "t0").isOk =
        false :=
  ⟨by decide, by decide⟩

/-- Claim C3 (amended): a raw path whose sub-path list normalizes to an
empty segment list contributes that empty list to the candidate set that
is handed to `choose_best_route` — nothing drops it at the call site; an
empty selection never reaches the output, since every produced route is
non-empty (the caller falls back instead). -/
theorem empty_candidates_kept :
    (∀ (prefs : PreferenceProfile) (resp : PyResp) (p : OdsayPath),
        p ∈ getPaths resp → p.subPath.getD [] = [] →
        [] ∈ candidateRoutes resp prefs) ∧
      ∀ (hav : ℚ × ℚ → ℚ × ℚ → ℚ) (origin dest : String)
        (jsOut : Option FetchBehavior) (prefs : PreferenceProfile)
        (learn : Bool) (now : String) (segs : List Segment)
        (hist : List HistoryRecord),
        runSearch hav origin dest jsOut prefs learn now = .ok segs hist →
        segs ≠ [] := by
  constructor
  · intro prefs resp p hp hsub
    unfold candidateRoutes
    exact List.mem_map.mpr ⟨p, hp, by rw [hsub]; rfl⟩
  · intro hav origin dest jsOut prefs learn now segs hist h
    unfold runSearch at h
    cases hc : searchCore hav origin dest jsOut prefs <;> rw [hc] at h
    case warnStop m => exact Outcome.noConfusion h
    case errorStop m => exact Outcome.noConfusion h
    case exception m => exact Outcome.noConfusion h
    case okSegs s =>
      replace h :
          Outcome.ok s (if learn then [mkHistoryRecord now origin dest s] else []) =
            Outcome.ok segs hist := h
      injection h with hsegs hhist
      subst hsegs
      exact searchCore_ok_nonempty hav origin dest jsOut prefs _ hc

/-- Counterexample for C3 as stated: a response with one path whose
sub-path list is empty puts the empty route into the candidate set handed
to `choose_best_route`. -/
theorem empty_route_in_candidates_cex :
    [] ∈ candidateRoutes emptyPathResp prefs0 := by decide

/-- Claim C5 (amended): the location strings are resolved only as literal
"lat,lng" pairs — an input whose first two comma-separated components do
not both parse as numbers yields the `Invalid coordinate format` error
payload regardless of the fetch behavior (no geocoding exists), and when
both components parse, the provider response is passed through
untouched. -/
theorem resolver_literal_pairs_only :
    (∀ (origin dest : String) (f : FetchBehavior),
        parseCoordsJS origin = none ∨ parseCoordsJS dest = none →
        jsResult origin dest f =
          { error := some "Invalid coordinate format", result := none }) ∧
      ∀ (origin dest : String) (resp : PyResp),
        (parseCoordsJS origin).isSome = true → (parseCoordsJS dest).isSome = true →
        jsResult origin dest (.ok resp) = resp := by
  constructor
  · intro origin dest f h
    unfold jsResult
    rcases h with h | h
    · rw [h]
    · cases hpo : parseCoordsJS origin <;> rw [h]
  · intro origin dest resp ho hd
    obtain ⟨o, ho2⟩ := Option.isSome_iff_exists.mp ho
    obtain ⟨d, hd2⟩ := Option.isSome_iff_exists.mp hd
    unfold jsResult
    rw [ho2, hd2]

/-- Counterexample for C5 as stated: a place-name input is not geocoded
but rejected with a validation error. -/
theorem place_name_rejected_cex :
    runSearch hav0 "서울역" dest0 (some (FetchBehavior.ok emptyResp)) prefs0 false "t0" =
      Outcome.errorStop "ODsay API 오류: Invalid coordinate format" := by decide

/-- Claim C6: an input that does not parse as a coordinate pair makes the
search stop with a user-facing message (warning or validation error) and
never produce a route, whatever the provider would have answered. -/
theorem malformed_input_stops (hav : ℚ × ℚ → ℚ × ℚ → ℚ) (origin dest : String)
    (jsOut : Option FetchBehavior) (prefs : PreferenceProfile) (learn : Bool)
    (now : String)
    (h : parseCoordsJS origin = none ∨ parseCoordsJS dest = none) :
    (runSearch hav origin dest jsOut prefs learn now).isUserStop = true ∧
      (runSearch hav origin dest jsOut prefs learn now).isOk = false := by
  have hs := searchCore_malformed_isStop hav origin dest jsOut prefs h
  constructor
  · rw [isUserStop_eq_isStop]
    exact hs
  · unfold runSearch
    cases hc : searchCore hav origin dest jsOut prefs
    case warnStop m => rfl
    case errorStop m => rfl
    case exception m => rfl
    case okSegs s =>
      rw [hc] at hs
      exact absurd hs (by simp [StepResult.isStop])

/-- Witness for C6: a place-name origin stops the search and produces no
route. -/
theorem malformed_input_stops_witness :
    (runSearch hav0 "서울역" dest0 (some (FetchBehavior.ok emptyResp)) prefs0 false "t0").isUserStop =
        true ∧
      (runSearch hav0 "서울역" dest0 (some (FetchBehavior.ok emptyResp)) prefs0 false "t0").isOk =
        false :=
  malformed_input_stops hav0 "서울역" dest0 (some (FetchBehavior.ok emptyResp)) prefs0 false "t0"
    (Or.inl (by decide))

/-- Claim C10: a provider response with a missing `result` or missing
`path` key yields an empty candidate list (no exception), selection then
returns no route, and — when the coordinates re-parse — the run proceeds
to the fallback walk route. -/
theorem missing_keys_empty_candidates (prefs : PreferenceProfile) (resp : PyResp)
    (h : resp.result = none ∨ ∃ r, resp.result = some r ∧ r.path = none) :
    candidateRoutes resp prefs = [] ∧
      (choose_best_route (candidateRoutes resp prefs) prefs).2 = none ∧
      ∀ (hav : ℚ × ℚ → ℚ × ℚ → ℚ) (origin dest : String) (o d : ℚ × ℚ),
        resp.error = none →
        pyParsePair origin = some o → pyParsePair dest = some d →
        respStage hav origin dest prefs resp = .okSegs (fallbackSegs (hav o d) o d) := by
  have hpaths : getPaths resp = [] := by
    rcases h with h | ⟨r, hr, hp⟩
    · unfold getPaths
      rw [h]
    · unfold getPaths
      rw [hr]
      show r.path.getD [] = []
      rw [hp]
      rfl
  have hcand : candidateRoutes resp prefs = [] := by
    unfold candidateRoutes
    rw [hpaths]
    rfl
  refine ⟨hcand, ?_, ?_⟩
  · rw [hcand]
    rfl
  · intro hav origin dest o d herr ho hd
    simp only [respStage, segsOrFallback, renderStage, herr, hcand, ho, hd,
      pyPair_draw ho, pyPair_draw hd, choose_best_route, List.enum_nil,
      List.foldl_nil, Option.getD_none, List.isEmpty_nil, if_true]

/-- Witness for C10: a response with no `result` key. -/
theorem missing_keys_empty_candidates_witness :
    candidateRoutes noResultResp prefs0 = [] ∧
      (choose_best_route (candidateRoutes noResultResp prefs0) prefs0).2 = none ∧
      ∀ (hav : ℚ × ℚ → ℚ × ℚ → ℚ) (origin dest : String) (o d : ℚ × ℚ),
        noResultResp.error = none →
        pyParsePair origin = some o → pyParsePair dest = some d →
        respStage hav origin dest prefs0 noResultResp = .okSegs (fallbackSegs (hav o d) o d) :=
  missing_keys_empty_candidates prefs0 noResultResp (Or.inl rfl)

end Planner
